import Mathlib

/-!
Shallow embedding of the mqtt-bridge core of `aiophyn` (src/aiophyn/mqtt.py):
the `Timer` class, the `MQTTClient` session state with its transport
callbacks (`_on_disconnect`, `_on_subscribe`, `_on_message`), the reconnect
loop `_do_reconnect`, the endpoint resolver `get_mqtt_info`, and the
handler registry operation `add_event_handler`.

Modelling conventions:
- asyncio tasks are identified by natural-number ids; creating a task
  records it, cancellation marks it cancelled.
- Python dicts are modelled as association lists in insertion order
  (assignment overwrites in place, `del` removes the entry).
- `json.loads` is external stdlib code; it is modelled as an abstract
  decoder parameter `String -> Option Nat` (`none` = JSONDecodeError).
- Exceptions are modelled with `Except`; a Python name referenced before
  assignment surfaces as `PyErr.unboundLocal`.
-/

namespace Aiophyn

/-! ## Timer (mqtt.py lines 66-87)

`__init__` sets `_timeout = 0`, `_callback`, `_task = None`.
`_job(timeout)` sleeps then invokes the callback once.
`cancel()` cancels `self._task` when it is not `None`.
`start(timeout)` runs `asyncio.create_task(self._job(timeout))`; note that
the source does NOT assign the created task to `self._task` and does NOT
cancel any previously created job. -/

structure TimerState where
  /-- `self._task`: the task reference `cancel` acts on. -/
  task : Option Nat
  /-- every job created by `start`, as (task id, cancelled flag). -/
  jobs : List (Nat × Bool)
  /-- id for the next created task. -/
  nextId : Nat
deriving Repr, DecidableEq

def Timer.init : TimerState := ⟨none, [], 0⟩

def Timer.start (st : TimerState) (_timeout : Nat) : TimerState :=
  { st with jobs := st.jobs ++ [(st.nextId, false)], nextId := st.nextId + 1 }

def Timer.cancel (st : TimerState) : TimerState :=
  match st.task with
  | none => st
  | some t => { st with jobs := st.jobs.map fun j => if j.1 = t then (j.1, true) else j }

/-- Number of scheduled jobs that will eventually run their callback
(every created job whose task was not cancelled fires once its delay
elapses). -/
def TimerState.firingJobs (st : TimerState) : Nat :=
  (st.jobs.filter fun j => !j.2).length

/-! ## MQTTClient session state (mqtt.py lines 89-113) -/

structure ClientState where
  /-- `self.pending_acks`: dict mid -> topic, as an assoc list. -/
  pending_acks : List (Nat × String)
  /-- `self.topics`: list of confirmed topics. -/
  topics : List String
  /-- `self.connect_evt.is_set()`. -/
  connect_evt : Bool
  /-- `self.connect_task`: id of the in-flight reconnect task, if any. -/
  connect_task : Option Nat
  /-- `self.disconnect_evt`: `none` = attribute is `None`; `some b` =
  an `asyncio.Event` exists with is_set = b. -/
  disconnect_evt : Option Bool
deriving Repr, DecidableEq

/-- `MQTTClient.is_connected` (mqtt.py lines 198-199). -/
def is_connected (st : ClientState) : Bool := st.connect_evt

/-- Python dict assignment `d[k] = v`: overwrite in place, else append. -/
def dictInsert (d : List (Nat × String)) (k : Nat) (v : String) : List (Nat × String) :=
  if (d.find? fun p => p.1 = k).isSome then
    d.map fun p => if p.1 = k then (k, v) else p
  else d ++ [(k, v)]

/-- `MQTTClient.subscribe` (mqtt.py lines 154-157): issue the transport
subscribe request (returning `msg_id`) and record
`self.pending_acks[msg_id] = topic`. -/
def subscribe (st : ClientState) (msg_id : Nat) (topic : String) : ClientState :=
  { st with pending_acks := dictInsert st.pending_acks msg_id topic }

/-- `MQTTClient._on_disconnect` (mqtt.py lines 179-196): if a
`disconnect_evt` exists, set it; elif `is_connected()`, create a reconnect
task only when `connect_task is None`; always clear `connect_evt`.
`newTaskId` stands for the task object `asyncio.create_task` would return. -/
def on_disconnect (st : ClientState) (newTaskId : Nat) : ClientState :=
  let st' :=
    match st.disconnect_evt with
    | some _ => { st with disconnect_evt := some true }
    | none =>
      if is_connected st then
        match st.connect_task with
        | none => { st with connect_task := some newTaskId }
        | some _ => st
      else st
  { st' with connect_evt := false }

/-- `MQTTClient._on_subscribe` (mqtt.py lines 255-268): if `mid` is a key
of `pending_acks`, append the stored topic to `self.topics` and delete the
entry; otherwise only log. -/
def on_subscribe (st : ClientState) (mid : Nat) : ClientState :=
  match st.pending_acks.find? fun p => p.1 = mid with
  | some e =>
    { st with
      topics := st.topics ++ [e.2]
      pending_acks := st.pending_acks.filter fun p => p.1 ≠ mid }
  | none => st

/-! ## Reconnect loop `_do_reconnect` (mqtt.py lines 206-235)

The loop repeats: optional backoff sleep, `client.reconnect`, wait for
`connect_evt`, resubscribe to `list(set(self.topics))` in parallel via
`asyncio.gather`; `CancelledError` propagates out of the loop,
any other exception retries; on success the loop breaks and
`self.connect_task = None` runs.  One iteration is modelled by the
outcome the environment gives it; `list(set(...))` deduplicates (set
iteration order is immaterial to the stated properties and is modelled
by `List.dedup`). -/

/-- What the environment does to one iteration of the reconnect loop:
everything up to and including the resubscription gather succeeds, or some
step raises an ordinary exception, or the task is cancelled. -/
inductive Attempt
  | success
  | failure
  | cancelledError
deriving Repr, DecidableEq

/-- The deduplicated resubscription targets `list(set(self.topics))` of a
successful pass; one transport subscribe request is issued per element. -/
def resubscribe_requests (st : ClientState) : List String :=
  st.topics.dedup

/-- The resubscription step of a successful pass: one `subscribe` call per
deduplicated topic, `mid` assigning the transport message id of each. -/
def resubscribe_all (st : ClientState) (mid : String → Nat) : ClientState :=
  (resubscribe_requests st).foldl (fun acc t => subscribe acc (mid t) t) st

/-- Exits of `_do_reconnect` other than returning normally. -/
inductive LoopExit
  /-- `asyncio.CancelledError` was re-raised: the loop aborts and the line
  `self.connect_task = None` is never reached. -/
  | cancelled
  /-- the outcome script ran out while the loop was still retrying. -/
  | stillRetrying
deriving Repr, DecidableEq

/-- `MQTTClient._do_reconnect`: iterate over the script of attempt
outcomes; only a fully successful pass (reconnect, connect event,
resubscription of every deduplicated confirmed topic) reaches the `break`,
after which `self.connect_task = None` is assigned. -/
def do_reconnect (st : ClientState) (mid : String → Nat) :
    List Attempt → Except LoopExit ClientState
  | [] => .error .stillRetrying
  | a :: rest =>
    match a with
    | .success => .ok { resubscribe_all st mid with connect_task := none }
    | .failure => do_reconnect st mid rest
    | .cancelledError => .error .cancelled

/-! ## Inbound message handling `_on_message` (mqtt.py lines 237-253)

`msg = payload.decode()`; `try: data = json.loads(msg) except
JSONDecodeError: log` — note there is no `return` in the except branch;
`device_id` is the third `/`-segment when the topic starts with
`prd/app_subscriptions/`, else `None`; then every registered `update`
handler is dispatched via `asyncio.ensure_future(h(device_id, data))`.
When `json.loads` failed, the name `data` is unbound at that reference,
so the first loop iteration raises `UnboundLocalError`. -/

/-- Python `str.split(sep)` on the character list: `"a/b/c"` splits to
`["a", "b", "c"]`, the empty string splits to `[""]`. -/
def splitChar (sep : Char) : List Char → List (List Char)
  | [] => [[]]
  | c :: rest =>
    match splitChar sep rest with
    | [] => if c = sep then [[], []] else [[c]]
    | h :: t => if c = sep then [] :: h :: t else (c :: h) :: t

/-- Python `str.startswith(pre)`. -/
def pyStartsWith (s pre : String) : Bool :=
  pre.data.isPrefixOf s.data

/-- A Python runtime error relevant to the embedded code paths. -/
inductive PyErr
  /-- local variable referenced before assignment. -/
  | unboundLocal (name : String)
  /-- `raise Exception(msg)`. -/
  | exn (msg : String)
deriving Repr, DecidableEq

/-- An inbound transport message: topic and (decoded utf-8) payload. -/
structure Message where
  topic : String
  payload : String
deriving Repr, DecidableEq

/-- `MQTTClient._on_message`.  `decode` models `json.loads` (`none` =
`json.decoder.JSONDecodeError`); `handlers` is `self._handlers["update"]`
(handlers named by ids).  Returns the fire-and-forget dispatches
`(handler, device_id, data)` made via `asyncio.ensure_future`, or the
error the callback raises. -/
def on_message (decode : String → Option Nat) (handlers : List Nat) (m : Message) :
    Except PyErr (List (Nat × Option String × Nat)) :=
  let device_id : Option String :=
    if pyStartsWith m.topic "prd/app_subscriptions/" then
      some ⟨(splitChar '/' m.topic.data).getD 2 []⟩
    else none
  match decode m.payload with
  | some data => .ok (handlers.map fun h => (h, device_id, data))
  | none =>
    -- the except branch only logs; `data` is left unbound, so the first
    -- dispatch of the loop raises UnboundLocalError
    match handlers with
    | [] => .ok []
    | _ :: _ => .error (.unboundLocal "data")

/-! ## Endpoint resolver `get_mqtt_info` (mqtt.py lines 137-151)

```
try:
    wss_data = await self.api._request(...)
except:
    Exception("Could not get WebSocket/MQTT url from API")
match = re.match(r'wss:\/\/([a-zA-Z0-9\.\-]+)(\/mqtt?.*)', wss_data['wss_url'])
if not match:
    raise Exception("Could not find WebSocket/MQTT url")
return match.group(1), match.group(2)
```
The `except` branch constructs an Exception object but never raises it, so
when the control-plane call fails the error is swallowed, `wss_data` is
left unbound, and the subsequent subscript access raises
`UnboundLocalError`. -/

/-- Character class `[a-zA-Z0-9.-]` of the host capture group. -/
def hostChar (c : Char) : Bool :=
  c.isAlpha || c.isDigit || c = '.' || c = '-'

/-- Model of `re.match(r'wss:\/\/([a-zA-Z0-9\.\-]+)(\/mqtt?.*)', s)`:
after the literal `wss://`, group 1 is a maximal nonempty run of host
characters (the class excludes `/`, so greedy matching cannot backtrack
past the first non-host character), and group 2 must start with the
literal `/mqt` (`t?` and `.*` are optional); `.*` extends to the end of
the line.  Returns `(group 1, group 2)` on a match. -/
def re_match_wss (s : String) : Option (String × String) :=
  if pyStartsWith s "wss://" then
    let rest := s.data.drop 6
    let host := rest.takeWhile hostChar
    let tail := rest.drop host.length
    if host ≠ [] && pyStartsWith ⟨tail⟩ "/mqt" then
      some (⟨host⟩, ⟨tail.takeWhile (· ≠ '\n')⟩)
    else none
  else none

/-- `MQTTClient.get_mqtt_info`.  `api_response` is the outcome of
`await self.api._request("post", .../iot_policy, token_type="id")`:
`.ok url` carries the response's `wss_url` field, `.error ()` means the
request raised. -/
def get_mqtt_info (api_response : Except Unit String) : Except PyErr (String × String) :=
  match api_response with
  | .error _ =>
    -- swallowed: `Exception(...)` without `raise`; the next statement
    -- reads the never-assigned `wss_data`
    .error (.unboundLocal "wss_data")
  | .ok wss_url =>
    match re_match_wss wss_url with
    | none => .error (.exn "Could not find WebSocket/MQTT url")
    | some m => .ok m

/-! ## Handler registry `add_event_handler` (mqtt.py lines 109-121)

`self._handlers` is a dict with exactly the keys `connect`, `disconnect`,
`update`, each holding a list of registered targets. -/

structure HandlerMap where
  connect : List Nat
  disconnect : List Nat
  update : List Nat
deriving Repr, DecidableEq

/-- The fixed key set of `self._handlers`. -/
def handlerKeys : List String := ["connect", "disconnect", "update"]

/-- `self._handlers[ty]` for `ty` among the keys. -/
def HandlerMap.get (h : HandlerMap) (ty : String) : List Nat :=
  if ty = "connect" then h.connect
  else if ty = "disconnect" then h.disconnect
  else h.update

def HandlerMap.set (h : HandlerMap) (ty : String) (l : List Nat) : HandlerMap :=
  if ty = "connect" then { h with connect := l }
  else if ty = "disconnect" then { h with disconnect := l }
  else { h with update := l }

/-- `MQTTClient.add_event_handler` (mqtt.py lines 115-121): return `False`
when the category is not a key; return `True` when the target is already
registered; otherwise append the target and fall off the end of the
function, returning Python `None` (modelled `Option Bool` with
`none` = `None`). -/
def add_event_handler (h : HandlerMap) (ty : String) (target : Nat) :
    Option Bool × HandlerMap :=
  if ty ∉ handlerKeys then (some false, h)
  else if target ∈ h.get ty then (some true, h)
  else (none, h.set ty (h.get ty ++ [target]))

/-! ## Theorems -/

set_option maxRecDepth 8192

/-- C1: the claim says two `start` calls in succession leave exactly one
pending callback invocation (the second supersedes the first).  In the
source, `Timer.start` only calls `asyncio.create_task(self._job(timeout))`
without cancelling or even storing the previous task, so two `start`
calls leave TWO jobs that will each run the callback: evaluating the
model at two successive starts yields two firing jobs, not one. -/
theorem timer_double_start_fires_twice :
    (Timer.start (Timer.start Timer.init 3600) 3600).firingJobs = 2 := by
  decide

/-- C9: the claim says `cancel()` during the delay window prevents the
callback from firing.  In the source `start` never assigns `self._task`,
so `cancel()` finds `self._task is None` and does nothing: after
`start(3600); cancel()` the scheduled job still fires (one firing job,
not zero).  The no-op half of the claim does hold: `cancel()` on a fresh
Timer leaves the state unchanged and raises nothing. -/
theorem timer_cancel_does_not_stop_job :
    (Timer.cancel (Timer.start Timer.init 3600)).firingJobs = 1 ∧
    Timer.cancel Timer.init = Timer.init := by
  decide

/-- C2: the claim says a payload that fails JSON decoding is logged and
the callback returns without raising, with no update handler invoked and
later messages still dispatched.  The except branch of `_on_message` has
no `return`, so with one registered update handler a malformed payload
makes the dispatch loop read the unbound local `data` and raise
`UnboundLocalError`; a well-formed payload on the same client is
dispatched normally. -/
theorem on_message_decode_failure_raises :
    on_message (fun s => if s = "valid" then some 1 else none) [5]
      ⟨"prd/app_subscriptions/dev123", "not-json"⟩
      = .error (.unboundLocal "data") ∧
    on_message (fun s => if s = "valid" then some 1 else none) [5]
      ⟨"prd/app_subscriptions/dev123", "valid"⟩
      = .ok [(5, some "dev123", 1)] := by
  constructor <;> rfl

/-- C3: the claim says a failing control-plane call surfaces a distinct
EndpointUnavailable-style error.  The `except` branch of `get_mqtt_info`
constructs `Exception("Could not get WebSocket/MQTT url from API")` but
never raises it, so the transport error is swallowed and the function
instead fails with `UnboundLocalError` on `wss_data`.  The other two
legs of the claim do hold: a well-formed `wss://` response returns the
(host, path) pair, and a non-matching response raises the distinct
malformed-URL exception. -/
theorem get_mqtt_info_swallows_transport_error :
    get_mqtt_info (.error ()) = .error (.unboundLocal "wss_data") ∧
    get_mqtt_info (.ok "wss://broker.example.com/mqtt?x=1")
      = .ok ("broker.example.com", "/mqtt?x=1") ∧
    get_mqtt_info (.ok "https://broker.example.com/mqtt")
      = .error (.exn "Could not find WebSocket/MQTT url") := by
  refine ⟨rfl, ?_, ?_⟩ <;> rfl

/-- `_on_disconnect` never replaces an existing in-flight reconnect task:
the `asyncio.create_task` call is guarded by `connect_task is None`. -/
theorem on_disconnect_keeps_inflight {st : ClientState} {t : Nat} (n : Nat)
    (h : st.connect_task = some t) : (on_disconnect st n).connect_task = some t := by
  unfold on_disconnect
  cases hd : st.disconnect_evt
  · cases hc : st.connect_evt <;> simp [is_connected, hc, h]
  · simp [h]

/-- C4: at most one reconnect operation is in flight.  Under any sequence
of disconnect notifications, a notification arriving while `connect_task`
already holds a task leaves that same task in place (no second
`_do_reconnect` loop is spawned), and the reference is set to `None` only
by the reconnect loop returning normally through its `break`. -/
theorem reconnect_at_most_one_inflight (st st' : ClientState) (t : Nat)
    (ns : List Nat) (mid : String → Nat) (script : List Attempt)
    (h : st.connect_task = some t) :
    (ns.foldl on_disconnect st).connect_task = some t ∧
    (do_reconnect st mid script = .ok st' → st'.connect_task = none) := by
  constructor
  · induction ns generalizing st with
    | nil => exact h
    | cons n ns ih => exact ih _ (on_disconnect_keeps_inflight n h)
  · induction script with
    | nil => intro hok; cases hok
    | cons a rest ih =>
      cases a with
      | success =>
        intro hok
        rw [show do_reconnect st mid (.success :: rest)
              = .ok { resubscribe_all st mid with connect_task := none } from rfl] at hok
        cases hok
        rfl
      | failure => exact ih
      | cancelledError => intro hok; cases hok

/-- C4 witness at a concrete state: two further disconnect notifications
leave reconnect task 9 in place, and a successful loop pass clears it. -/
theorem reconnect_at_most_one_inflight_check :
    (([42, 43] : List Nat).foldl on_disconnect
        ⟨[], ["A"], true, some 9, none⟩).connect_task = some 9 ∧
    (ClientState.mk [(1, "A")] ["A"] true none none).connect_task = none :=
  ⟨(reconnect_at_most_one_inflight ⟨[], ["A"], true, some 9, none⟩
      ⟨[(1, "A")], ["A"], true, none, none⟩ 9 [42, 43] (fun _ => 1)
      [Attempt.success] rfl).1,
   (reconnect_at_most_one_inflight ⟨[], ["A"], true, some 9, none⟩
      ⟨[(1, "A")], ["A"], true, none, none⟩ 9 [42, 43] (fun _ => 1)
      [Attempt.success] rfl).2 (by rfl)⟩

/-- C5: when the disconnect notification fires while a disconnect-signal
handle exists (the user-initiated path), the handle is signalled, no
reconnect task is created (`connect_task` is untouched), and the connect
signal is cleared — the automatic reconnect path is never taken. -/
theorem user_disconnect_suppresses_reconnect (st : ClientState) (n : Nat) (b : Bool)
    (h : st.disconnect_evt = some b) :
    (on_disconnect st n).disconnect_evt = some true ∧
    (on_disconnect st n).connect_task = st.connect_task ∧
    (on_disconnect st n).connect_evt = false := by
  unfold on_disconnect
  simp [h]

/-- C5 witness: a connected client with an armed (not yet set) disconnect
event and no reconnect task in flight. -/
theorem user_disconnect_suppresses_reconnect_check :
    (on_disconnect ⟨[(7, "A")], ["B"], true, none, some false⟩ 42).disconnect_evt
      = some true ∧
    (on_disconnect ⟨[(7, "A")], ["B"], true, none, some false⟩ 42).connect_task
      = (ClientState.mk [(7, "A")] ["B"] true none (some false)).connect_task ∧
    (on_disconnect ⟨[(7, "A")], ["B"], true, none, some false⟩ 42).connect_evt
      = false :=
  user_disconnect_suppresses_reconnect ⟨[(7, "A")], ["B"], true, none, some false⟩
    42 false rfl

/-- C6: one successful pass of the reconnect loop resubscribes each
previously confirmed topic exactly once — the confirmed collection is
deduplicated by `list(set(self.topics))` before the subscribe calls are
gathered — and the in-flight reconnect reference is cleared only after
the whole resubscription step (the assignment `self.connect_task = None`
follows the `await asyncio.gather(...)` and the `break`). -/
theorem resubscribe_exactly_once (st st' : ClientState) (mid : String → Nat)
    (t : String) (h : t ∈ st.topics) :
    (resubscribe_requests st).count t = 1 ∧
    (do_reconnect st mid [Attempt.success] = .ok st' → st'.connect_task = none) := by
  constructor
  · rw [resubscribe_requests, List.count_dedup]
    simp [h]
  · intro hok
    rw [show do_reconnect st mid [Attempt.success]
          = .ok { resubscribe_all st mid with connect_task := none } from rfl] at hok
    cases hok
    rfl

/-- C6 witness: topic `A` confirmed twice is resubscribed once, and a
successful pass leaves no in-flight reconnect reference. -/
theorem resubscribe_exactly_once_check :
    (resubscribe_requests ⟨[], ["A", "B", "A"], true, some 9, none⟩).count "A" = 1 ∧
    (ClientState.mk [(2, "B"), (1, "A")] ["A", "B", "A"] true none none).connect_task
      = none :=
  ⟨(resubscribe_exactly_once ⟨[], ["A", "B", "A"], true, some 9, none⟩
      ⟨[(2, "B"), (1, "A")], ["A", "B", "A"], true, none, none⟩
      (fun t => if t = "A" then 1 else 2) "A" (by decide)).1,
   (resubscribe_exactly_once ⟨[], ["A", "B", "A"], true, some 9, none⟩
      ⟨[(2, "B"), (1, "A")], ["A", "B", "A"], true, none, none⟩
      (fun t => if t = "A" then 1 else 2) "A" (by decide)).2 (by rfl)⟩

/-- In a dict with pairwise-distinct keys, `find?` on the key of a member
entry returns exactly that entry. -/
theorem find_entry_of_mem {l : List (Nat × String)} {mid : Nat} {topic : String}
    (hn : (l.map Prod.fst).Nodup) (hm : (mid, topic) ∈ l) :
    l.find? (fun p => p.1 = mid) = some (mid, topic) := by
  induction l with
  | nil => cases hm
  | cons a tl ih =>
    rw [List.map_cons, List.nodup_cons] at hn
    rcases List.mem_cons.mp hm with he | hm'
    · rw [← he]
      rw [List.find?_cons_of_pos _ (by simp)]
    · have hne : ¬(a.1 = mid) := by
        intro he1
        exact hn.1 (he1 ▸ List.mem_map.mpr ⟨(mid, topic), hm', rfl⟩)
      rw [List.find?_cons_of_neg _ (by simpa using hne)]
      exact ih hn.2 hm'

/-- C7: a subscribe acknowledgment for a known pending request id moves
the associated topic into the confirmed collection and removes the
pending entry, leaving every other pending entry in place; an
acknowledgment for an unknown id changes neither the pending map nor the
confirmed collection. -/
theorem ack_consumed_exactly_once (st : ClientState) (mid : Nat) (topic : String)
    (hkeys : (st.pending_acks.map Prod.fst).Nodup) :
    ((mid, topic) ∈ st.pending_acks →
       (on_subscribe st mid).topics = st.topics ++ [topic] ∧
       mid ∉ (on_subscribe st mid).pending_acks.map Prod.fst ∧
       ∀ p ∈ st.pending_acks, p.1 ≠ mid → p ∈ (on_subscribe st mid).pending_acks) ∧
    (mid ∉ st.pending_acks.map Prod.fst → on_subscribe st mid = st) := by
  constructor
  · intro hm
    have hf := find_entry_of_mem hkeys hm
    unfold on_subscribe
    rw [hf]
    refine ⟨rfl, ?_, ?_⟩
    · simp [List.mem_map, List.mem_filter]
    · intro p hp hne
      simp [List.mem_filter, hp, hne]
  · intro hnm
    have hf : st.pending_acks.find? (fun p => p.1 = mid) = none := by
      rw [List.find?_eq_none]
      intro p hp
      simp only [decide_eq_true_eq]
      intro he
      exact hnm (List.mem_map.mpr ⟨p, hp, he⟩)
    unfold on_subscribe
    rw [hf]

/-- C7 witness: ack for pending id 7 confirms its topic; ack for unknown
id 9 leaves the state unchanged. -/
theorem ack_consumed_exactly_once_check :
    (on_subscribe ⟨[(7, "A"), (8, "B")], ["C"], true, none, none⟩ 7).topics
      = ["C"] ++ ["A"] ∧
    on_subscribe ⟨[(7, "A"), (8, "B")], ["C"], true, none, none⟩ 9
      = ⟨[(7, "A"), (8, "B")], ["C"], true, none, none⟩ :=
  ⟨((ack_consumed_exactly_once ⟨[(7, "A"), (8, "B")], ["C"], true, none, none⟩
      7 "A" (by decide)).1 (by decide)).1,
   (ack_consumed_exactly_once ⟨[(7, "A"), (8, "B")], ["C"], true, none, none⟩
      9 "X" (by decide)).2 (by decide)⟩

/-- C8 counterexample: a disconnect arriving while subscribe request 7 is
still awaiting its acknowledgment leaves the pending-acknowledgment map
untouched — `_on_disconnect` never clears `pending_acks`, so the claim
that every in-flight entry is discarded by disconnect handling is false
at this input. -/
theorem disconnect_does_not_clear_pending :
    (on_disconnect ⟨[(7, "A")], ["B"], true, none, none⟩ 1).pending_acks
      = [(7, "A")] ∧
    (on_disconnect ⟨[(7, "A")], ["B"], true, none, none⟩ 1).pending_acks ≠ [] := by
  decide

/-- C8 amended: disconnect handling touches neither subscription
structure: the pending-acknowledgment map persists unchanged across the
disconnect notification (in-flight entries are NOT discarded), and the
confirmed-topic collection persists as well. -/
theorem disconnect_preserves_subscription_state (st : ClientState) (n : Nat) :
    (on_disconnect st n).pending_acks = st.pending_acks ∧
    (on_disconnect st n).topics = st.topics := by
  unfold on_disconnect
  cases hd : st.disconnect_evt
  · cases hc : st.connect_evt <;> cases ht : st.connect_task <;>
      simp [is_connected, hc, ht]
  · simp

/-- C10: `add_event_handler` returns `False` for an unknown event
category (registering nothing), `True` when the target is already
registered (leaving the handler list unchanged), and Python `None` — a
falsy value — when a new target is appended to the category's list. -/
theorem add_event_handler_return_values (h : HandlerMap) (ty : String) (target : Nat) :
    (ty ∉ handlerKeys → add_event_handler h ty target = (some false, h)) ∧
    (ty ∈ handlerKeys → target ∈ h.get ty →
       add_event_handler h ty target = (some true, h)) ∧
    (ty ∈ handlerKeys → target ∉ h.get ty →
       (add_event_handler h ty target).1 = none ∧
       (add_event_handler h ty target).2.get ty = h.get ty ++ [target]) := by
  refine ⟨?_, ?_, ?_⟩
  · intro hty
    simp [add_event_handler, hty]
  · intro hty htg
    simp [add_event_handler, hty, htg]
  · intro hty htg
    have hk : ty = "connect" ∨ ty = "disconnect" ∨ ty = "update" := by
      simpa [handlerKeys] using hty
    constructor
    · simp [add_event_handler, hty, htg]
    · rcases hk with rfl | rfl | rfl <;>
        simp [HandlerMap.get] at htg <;>
        simp [add_event_handler, HandlerMap.get, HandlerMap.set, htg, handlerKeys]

/-- C10 witness: the three return values at concrete registry states. -/
theorem add_event_handler_return_values_check :
    add_event_handler ⟨[1], [], []⟩ "bogus" 1 = (some false, ⟨[1], [], []⟩) ∧
    add_event_handler ⟨[1], [], []⟩ "connect" 1 = (some true, ⟨[1], [], []⟩) ∧
    ((add_event_handler ⟨[1], [], []⟩ "connect" 2).1 = none ∧
     (add_event_handler ⟨[1], [], []⟩ "connect" 2).2.get "connect"
       = HandlerMap.get ⟨[1], [], []⟩ "connect" ++ [2]) :=
  ⟨(add_event_handler_return_values ⟨[1], [], []⟩ "bogus" 1).1 (by decide),
   (add_event_handler_return_values ⟨[1], [], []⟩ "connect" 1).2.1 (by decide)
     (by decide),
   (add_event_handler_return_values ⟨[1], [], []⟩ "connect" 2).2.2 (by decide)
     (by decide)⟩

end Aiophyn
